import Mathlib

/-!
A shallow embedding of the testimony ingestion pipeline
(backend/src/app: main.py, crud.py, tasks.py, utils.py and
src/semantic/chunker.py), with theorems checking the specification
claims against it.  External capabilities (Supabase, GCS, Celery,
OpenAI, pydub, nltk) are modelled as explicit oracles or state that
the embedded functions thread through.
-/

namespace TestimonyVault

/-! ## Python string primitives used by the source -/

/-- Models the Python truthiness test applied to an optional string
argument: `None` and the empty string are falsy. -/
def pyTruthyStr : Option String → Bool
  | none => false
  | some s => !(s == "")

/-- Models Python `str.lower()` (the source only lowercases ASCII
error messages). -/
def pyLower (s : String) : String :=
  String.mk (s.toList.map Char.toLower)

/-- Helper for substring search on character lists: does `pat` occur
at the head of `s`? -/
def listStartsWith : List Char → List Char → Bool
  | [], _ => true
  | _ :: _, [] => false
  | a :: as, b :: bs => a == b && listStartsWith as bs

/-- Helper for substring search on character lists: does `pat` occur
anywhere in `s`? -/
def listHasSub (pat : List Char) : List Char → Bool
  | [] => listStartsWith pat []
  | c :: rest => listStartsWith pat (c :: rest) || listHasSub pat rest

/-- Models the Python `in` operator on strings: `pat in s`. -/
def pyIn (pat s : String) : Bool :=
  listHasSub pat.toList s.toList

/-- Models Python `s.strip()`: remove leading and trailing
whitespace. -/
def pyStrip (s : String) : String :=
  String.mk (((s.toList.dropWhile Char.isWhitespace).reverse.dropWhile Char.isWhitespace).reverse)

/-- Word accumulator for `pySplitWs`. -/
def pySplitWsGo : List Char → List Char → List String
  | [], acc => if acc.isEmpty then [] else [String.mk acc.reverse]
  | c :: cs, acc =>
      if c.isWhitespace then
        if acc.isEmpty then pySplitWsGo cs [] else String.mk acc.reverse :: pySplitWsGo cs []
      else pySplitWsGo cs (c :: acc)

/-- Models Python `s.split()` (no separator argument): whitespace
runs separate words and produce no empty words. -/
def pySplitWs (s : String) : List String :=
  pySplitWsGo s.toList []

/-! ## Data model: testimony records (Supabase `testimonies` table) -/

/-- The `transcript_status` enumeration stored on a testimony row. -/
inductive Status where
  | pending
  | processing
  | completed
  | completedEmpty
  | failed
deriving DecidableEq, Repr

/-- Terminal statuses: no further automatic transition occurs. -/
def Status.isTerminal : Status → Bool
  | .completed => true
  | .completedEmpty => true
  | .failed => true
  | _ => false

/-- A row of the `testimonies` table (the columns the pipeline reads
or writes). -/
structure Testimony where
  id : Nat
  church_id : String
  audio_hash : String
  storage_url : String
  transcript_status : Status
  transcript : Option String
  summary : Option String
  summary_prompt_id : Option Nat
  tags : List String
  recorded_at : String
  audio_duration_ms : Nat
  user_file_name : String
deriving DecidableEq, Repr

/-- The partial update dictionary built by `update_db_status` and
applied by `crud.update_testimony`: a key is present (`some`) or
absent (`none`). -/
structure UpdateFields where
  transcript_status : Option Status
  transcript : Option String
  summary : Option String
  summary_prompt_id : Option Nat
deriving DecidableEq, Repr

/-- Embeds `crud.update_testimony`: applies the present keys of the
update dictionary to the row, leaving absent keys unchanged. -/
def update_testimony (t : Testimony) (f : UpdateFields) : Testimony :=
  { t with
    transcript_status :=
      match f.transcript_status with
      | some s => s
      | none => t.transcript_status
    transcript :=
      match f.transcript with
      | some v => some v
      | none => t.transcript
    summary :=
      match f.summary with
      | some v => some v
      | none => t.summary
    summary_prompt_id :=
      match f.summary_prompt_id with
      | some v => some v
      | none => t.summary_prompt_id }

/-- Embeds the dictionary construction in `tasks.update_db_status`:
`transcript_status` is always written; `transcript` and `summary`
only when Python-truthy (non-`None`, non-empty); `summary_prompt_id`
when not `None`. -/
def update_db_status_data (status : Status) (transcript summary : Option String)
    (summary_prompt_id : Option Nat) : UpdateFields :=
  { transcript_status := some status
    transcript := if pyTruthyStr transcript then transcript else none
    summary := if pyTruthyStr summary then summary else none
    summary_prompt_id := summary_prompt_id }

/-- Embeds `tasks.update_db_status` as a state transformer on the
addressed row. -/
def update_db_status (t : Testimony) (status : Status)
    (transcript summary : Option String) (summary_prompt_id : Option Nat) : Testimony :=
  update_testimony t (update_db_status_data status transcript summary summary_prompt_id)

/-! ## Summary engine and transcription worker (tasks.py)

The OpenAI client is external; it is modelled as an oracle recording,
for each external call, the outcome the provider would produce: a
returned value or a raised exception (with its message). -/

/-- Outcome of one external transcription call
(`openai_client.audio.transcriptions.create`): the returned text, or
an exception with its message. -/
inductive TranscriptionResult where
  | ok (text : String)
  | err (msg : String)
deriving DecidableEq, Repr

/-- The external OpenAI client as an oracle: `transcribe n` is the
outcome of the transcription call on the attempt whose Celery retry
counter is `n`; `chat` is the chat-completion outcome for a given
user content; `embed` is the embeddings outcome.  Vector entries are
opaque to the pipeline, so they are modelled as integers. -/
structure OpenAIClient where
  transcribe : Nat → TranscriptionResult
  chat : String → Except String String
  embed : String → Except String (List Int)

/-- Embeds `tasks.generate_summary`: empty transcript or missing
client gives the empty string; an exception from the external call is
caught and gives the empty string; otherwise the model output is
stripped.  The function is total: it never propagates an error. -/
def generate_summary (client : Option OpenAIClient) (transcript : String) : String :=
  match client with
  | none => ""
  | some c =>
      if transcript == "" then ""
      else
        match c.chat transcript with
        | .ok content => pyStrip content
        | .error _ => ""

/-- Embeds `tasks.generate_embedding_from_summary_text`: empty text or
missing client gives `[]`; newlines are replaced by spaces before the
call; an exception from the external call gives `[]`. -/
def generate_embedding_from_summary_text (client : Option OpenAIClient)
    (text : String) : List Int :=
  match client with
  | none => []
  | some c =>
      if text == "" then []
      else
        match c.embed (String.map (fun ch => if ch == Char.ofNat 10 then Char.ofNat 32 else ch) text) with
        | .ok v => v
        | .error _ => []

/-- Embeds the transient-error classification in
`tasks.transcribe_testimony`: the lowercased exception message
contains `rate limit` or `timeout`. -/
def isTransientError (msg : String) : Bool :=
  pyIn "rate limit" (pyLower msg) || pyIn "timeout" (pyLower msg)

/-- `max_retries=3` on the Celery task decorator. -/
def maxRetries : Nat := 3

/-- Observable side effects of one run of the `transcribe_testimony`
task: database status writes (through `update_db_status`), scheduled
Celery retries, the summary-generation call and the embedding upsert. -/
inductive Event where
  | dbWrite (status : Status) (transcript summary : Option String)
      (summary_prompt_id : Option Nat)
  | retryScheduled (countdown : Nat)
  | summaryCall
  | embedUpsert (vector : List Int)
deriving DecidableEq, Repr

/-- Environment of one task execution: the (possibly uninitialized)
OpenAI client, and the outcome of the `get_or_create_summary_prompt`
database call (which the task wraps in try/except, falling back to a
`None` prompt id). -/
structure WorkerEnv where
  client : Option OpenAIClient
  promptResult : Except String Nat

/-- The body of one `transcribe_testimony` attempt once the
transcription call has succeeded with raw text `raw`
(tasks.py lines 191 to 227): strip, branch on emptiness, track the
summary prompt, generate the summary, embed a non-empty summary, and
write the terminal status. -/
def completionEvents (env : WorkerEnv) (raw : String) : List Event :=
  let transcript := if raw == "" then "" else pyStrip raw
  if transcript == "" then
    [Event.dbWrite .completedEmpty none none none]
  else
    let prompt_id : Option Nat :=
      match env.promptResult with
      | .ok i => some i
      | .error _ => none
    let summary := generate_summary env.client transcript
    let embedEvents : List Event :=
      if summary == "" then []
      else
        let vector := generate_embedding_from_summary_text env.client summary
        if vector == [] then [] else [Event.embedUpsert vector]
    Event.summaryCall :: embedEvents
      ++ [Event.dbWrite .completed (some transcript) (some summary) prompt_id]

/-- The attempt loop of `transcribe_testimony`, starting from Celery
retry counter `r`, unrolled on explicit fuel (the loop makes at most
`maxRetries + 1` attempts, so the fuel is never exhausted when it
starts at `maxRetries + 1 - r`).  Each attempt first writes
`processing`; a transient error with retries remaining schedules a
retry with countdown `60 * (r + 1)`; a transient error with retries
exhausted, or any other error, writes `failed`. -/
def runAttempts (env : WorkerEnv) (c : OpenAIClient) : Nat → Nat → List Event
  | 0, _ => []
  | fuel + 1, r =>
      Event.dbWrite .processing none none none ::
        match c.transcribe r with
        | .ok raw => completionEvents env raw
        | .err msg =>
            if isTransientError msg then
              if r < maxRetries then
                Event.retryScheduled (60 * (r + 1)) :: runAttempts env c fuel (r + 1)
              else
                [Event.dbWrite .failed none none none]
            else
              [Event.dbWrite .failed none none none]

/-- Embeds one complete run of the `transcribe_testimony` Celery task
(including Celery re-deliveries after `self.retry`) as the list of
its observable events.  An uninitialized client writes `failed` and
raises before any attempt. -/
def transcribe_testimony_run (env : WorkerEnv) : List Event :=
  match env.client with
  | none => [Event.dbWrite .failed none none none]
  | some c => runAttempts env c (maxRetries + 1) 0

/-- Applies a database write event to the addressed testimony row;
other events do not touch the row. -/
def applyEvent (t : Testimony) : Event → Testimony
  | .dbWrite status transcript summary spid =>
      update_db_status t status transcript summary spid
  | _ => t

/-- The successive store states of the addressed row along an event
trace, starting from `t0`. -/
def traceStates (t0 : Testimony) (evs : List Event) : List Testimony :=
  evs.scanl applyEvent t0

/-- The sequence of statuses written by a trace. -/
def statusWrites (evs : List Event) : List Status :=
  evs.filterMap fun e =>
    match e with
    | .dbWrite s _ _ _ => some s
    | _ => none

/-! ## Prompt version registry (crud.get_or_create_summary_prompt)

The `summary_prompts` table is modelled as a list of rows together
with the next serial id the database would assign.  The SHA-256 hash
is injective on the inputs the registry ever distinguishes, so it is
modelled as the identity on its input string: two hashes are equal
exactly when the hashed strings are. -/

/-- Models `hashlib.sha256(s.encode()).hexdigest()` as an injective
function of the hashed string. -/
def sha256_hex (s : String) : String := s

/-- A row of the `summary_prompts` table.  `temperature` is a decimal
parameter never used in arithmetic; it is modelled as a rational. -/
structure SummaryPrompt where
  id : Nat
  name : String
  version : String
  prompt_template : String
  model_name : String
  temperature : Rat
  max_tokens : Nat
  template_hash : String
  is_active : Bool
deriving DecidableEq, Repr

/-- The `summary_prompts` table with the serial-id counter of the
database. -/
structure PromptStore where
  rows : List SummaryPrompt
  nextId : Nat
deriving DecidableEq, Repr

/-- Well-formedness the database guarantees for `summary_prompts`:
row ids are pairwise distinct and below the serial counter. -/
def PromptStore.WF (sb : PromptStore) : Prop :=
  sb.rows.Pairwise (fun a b => a.id ≠ b.id) ∧ ∀ r ∈ sb.rows, r.id < sb.nextId

/-- Embeds `crud.get_or_create_summary_prompt`: hash
`template|model|version`, return the id of the first row carrying
that hash, and otherwise insert a new active row and return its id. -/
def get_or_create_summary_prompt (sb : PromptStore) (name version prompt_template model_name : String)
    (temperature : Rat) (max_tokens : Nat) : Nat × PromptStore :=
  let template_hash := sha256_hex (prompt_template ++ "|" ++ model_name ++ "|" ++ version)
  match sb.rows.find? (fun r => r.template_hash == template_hash) with
  | some r => (r.id, sb)
  | none =>
      let row : SummaryPrompt :=
        { id := sb.nextId
          name := name
          version := version
          prompt_template := prompt_template
          model_name := model_name
          temperature := temperature
          max_tokens := max_tokens
          template_hash := template_hash
          is_active := true }
      (sb.nextId, { rows := sb.rows ++ [row], nextId := sb.nextId + 1 })

/-! ## Fingerprint (utils.get_audio_metadata)

Audio decoding (pydub) and MD5 are external.  Decoding is modelled as
an oracle value: `none` when `AudioSegment.from_file` raises, and
otherwise the decoded clip, carrying its length and the MD5 hex of
the raw data of its first 30 seconds (the hash the source computes
from the decoded segment). -/

/-- A successfully decoded audio clip, as far as the fingerprint
reads it. -/
structure DecodedAudio where
  length_ms : Nat
  prefix30s_md5 : String
deriving DecidableEq, Repr

/-- Embeds `utils.get_audio_metadata`: on decode success, the clip
length and the hash of the first-30-seconds segment; on any decode
failure, `(None, None)`. -/
def get_audio_metadata (decoded : Option DecodedAudio) : Option Nat × Option String :=
  match decoded with
  | some audio => (some audio.length_ms, some audio.prefix30s_md5)
  | none => (none, none)

/-! ## Ingestion gateway (main.create_testimony with crud lookups) -/

/-- The `testimonies` table with the serial-id counter of the
database. -/
structure TestimonyStore where
  rows : List Testimony
  nextId : Nat
deriving DecidableEq, Repr

/-- Embeds `crud.check_duplicate_testimony`: the id of the first row
whose `audio_hash` matches, further filtered by `church_id` when one
is given. -/
def check_duplicate_testimony (store : TestimonyStore) (audio_hash : String)
    (church_id : Option String) : Option Nat :=
  (store.rows.find? fun t =>
      t.audio_hash == audio_hash &&
        match church_id with
        | some c => t.church_id == c
        | none => true).map (fun t => t.id)

/-- Embeds `crud.get_testimony_by_id`. -/
def get_testimony_by_id (store : TestimonyStore) (testimony_id : Nat) : Option Testimony :=
  store.rows.find? fun t => t.id == testimony_id

/-- `MAX_FILE_SIZE = 10 * 1024 * 1024` in main.py. -/
def MAX_FILE_SIZE : Nat := 10 * 1024 * 1024

/-- The closed `ChurchLocation` enumeration of schemas.py. -/
def churchLocations : List String := ["Lausanne", "Zurich", "Bern", "Ginebra", "US"]

/-- Embeds the tags form-field parsing in `create_testimony`:
a falsy value gives `[]`, otherwise split on commas and strip. -/
def parseTags (tags : Option String) : List String :=
  match tags with
  | none => []
  | some s => if s == "" then [] else (s.splitOn ",").map String.trim

/-- Embeds the `recorded_at` fallback logic: a parseable date is kept
in ISO form, an unparseable or missing one falls back to the current
date.  ISO date parsing is external and is supplied as an oracle. -/
def resolveRecordedAt (parseISO : String → Option String) (today : String)
    (recorded_at : Option String) : String :=
  match recorded_at with
  | some s =>
      if s == "" then today
      else
        match parseISO s with
        | some d => d
        | none => today
  | none => today

/-- The HTTP-level outcome of `create_testimony`. -/
inductive CreateResult where
  | httpError (statusCode : Nat) (detail : String)
  | duplicateOf (t : Testimony)
  | created (t : Testimony)
deriving DecidableEq, Repr

/-- The side effects of one `create_testimony` call beyond reads:
whether it uploaded the object to GCS, inserted a row, and enqueued a
transcription job. -/
structure CreateEffects where
  uploaded : Bool
  inserted : Bool
  enqueued : Bool
deriving DecidableEq, Repr

/-- No side effect beyond the lookup. -/
def CreateEffects.none : CreateEffects :=
  { uploaded := false, inserted := false, enqueued := false }

/-- All side effects of the fresh-upload path. -/
def CreateEffects.full : CreateEffects :=
  { uploaded := true, inserted := true, enqueued := true }

/-- The request data of one upload, with the external oracles the
handler consults (audio decoding, date parsing, the current date). -/
structure CreateRequest where
  fileSize : Nat
  fileName : String
  church_id : Option String
  tags : Option String
  recorded_at : Option String
  decoded : Option DecodedAudio
  parseISO : String → Option String
  today : String

/-- The pending row `create_testimony` inserts (`testimony_data` in
main.py): no transcript, no summary, status `pending`. -/
def newTestimonyData (req : CreateRequest) (store : TestimonyStore)
    (church_id storage_url : String) (duration_ms : Nat) (audio_hash : String) : Testimony :=
  { id := store.nextId
    church_id := church_id
    audio_hash := audio_hash
    storage_url := storage_url
    transcript_status := .pending
    transcript := none
    summary := none
    summary_prompt_id := none
    tags := parseTags req.tags
    recorded_at := resolveRecordedAt req.parseISO req.today req.recorded_at
    audio_duration_ms := duration_ms
    user_file_name := req.fileName }

/-- Embeds `main.create_testimony`: size limit, church validation
with default, fingerprinting with rejection of undecodable audio,
duplicate short-circuit when the first fingerprint match is a
completed record, and otherwise upload, insert of a pending row and
job enqueue.  Returns the HTTP outcome, the resulting store and the
effects performed. -/
def create_testimony (store : TestimonyStore) (req : CreateRequest) :
    CreateResult × TestimonyStore × CreateEffects :=
  if req.fileSize > MAX_FILE_SIZE then
    (.httpError 413 "File size exceeds maximum limit", store, CreateEffects.none)
  else
    let cid0 := match req.church_id with | some c => c | none => ""
    if cid0 != "" && !(churchLocations.contains cid0) then
      (.httpError 400 "Invalid church_id", store, CreateEffects.none)
    else
      let church_id := if cid0 == "" then "Lausanne" else cid0
      let meta := get_audio_metadata req.decoded
      match meta.2 with
      | none => (.httpError 400 "Could not process audio file", store, CreateEffects.none)
      | some audio_hash =>
          let duration_ms := match meta.1 with | some d => d | none => 0
          let dupBranch : Option Testimony :=
            match check_duplicate_testimony store audio_hash (some church_id) with
            | some duplicate_id =>
                if duplicate_id ≠ 0 then
                  match get_testimony_by_id store duplicate_id with
                  | some existing =>
                      if existing.transcript_status = .completed then some existing else none
                  | none => none
                else none
            | none => none
          match dupBranch with
          | some existing => (.duplicateOf existing, store, CreateEffects.none)
          | none =>
              let storage_url := "gs://" ++ "bucket" ++ "/testimony_audio/" ++ req.fileName
              let row := newTestimonyData req store church_id storage_url duration_ms audio_hash
              (.created row,
                { rows := store.rows ++ [row], nextId := store.nextId + 1 },
                CreateEffects.full)

/-! ## Transcript chunker (src/semantic/chunker.py)

The tokenizer and the sentence segmenter are external: `_tok_len` is
passed in as a function, and `nltk.sent_tokenize` as an oracle that
either returns the sentence list or raises `LookupError` (triggering
the whitespace-window fallback).  The shipped fallback tokenizer (the
`_Dummy` class) counts whitespace-separated words; it is embedded as
`wordCount`. -/

/-- One yielded chunk dictionary. -/
structure Chunk where
  idx : Nat
  text : String
  tokens : Nat
deriving DecidableEq, Repr

/-- Models Python `" ".join(xs)`. -/
def joinSp (xs : List String) : String :=
  String.intercalate " " xs

/-- The `_Dummy` fallback tokenizer of chunker.py: token count is the
whitespace word count. -/
def wordCount (s : String) : Nat :=
  (pySplitWs s).length

/-- The whitespace-window fallback path of `make_chunks` (taken when
sentence segmentation raises `LookupError`): windows of `max_tokens`
words advancing by `max_tokens - overlap`.  Python would raise on a
zero step; the model returns no chunks then. -/
def fallbackChunks (text : String) (max_tokens overlap : Nat) : List Chunk :=
  let words := pySplitWs text
  let step := max_tokens - overlap
  if step = 0 then []
  else
    (List.range' 0 ((words.length + step - 1) / step) step).map fun i =>
      let chunk := (words.drop i).take max_tokens
      { idx := i / step, text := joinSp chunk, tokens := chunk.length }

/-- The sentence-accumulation loop of `make_chunks`: greedily buffer
sentences; when adding the next sentence would exceed `max_tokens`,
yield the buffer and carry over the last `overlap` sentences; yield
the final non-empty buffer. -/
def sentLoop (tokLen : String → Nat) (max_tokens overlap : Nat) :
    List String → List String → Nat → Nat → List Chunk
  | [], buf, buf_tok, idx =>
      if buf.isEmpty then [] else [{ idx := idx, text := joinSp buf, tokens := buf_tok }]
  | s :: rest, buf, buf_tok, idx =>
      let t := tokLen s
      if buf_tok + t > max_tokens then
        let carried := if overlap ≠ 0 then buf.drop (buf.length - overlap) else []
        let carried_tok := if carried.isEmpty then 0 else tokLen (joinSp carried)
        { idx := idx, text := joinSp buf, tokens := buf_tok } ::
          sentLoop tokLen max_tokens overlap rest (carried ++ [s]) (carried_tok + t) (idx + 1)
      else
        sentLoop tokLen max_tokens overlap rest (buf ++ [s]) (buf_tok + t) idx

/-- Embeds `chunker.make_chunks` as the list of yielded chunks, over
a tokenizer `tokLen` and a sentence-segmentation oracle that raises
(`Except.error`) when the nltk data is unavailable. -/
def make_chunks (tokLen : String → Nat) (sentTokenize : String → Except Unit (List String))
    (text : String) (max_tokens overlap : Nat) : List Chunk :=
  if tokLen text ≤ max_tokens then
    [{ idx := 0, text := text, tokens := tokLen text }]
  else
    match sentTokenize text with
    | .error _ => fallbackChunks text max_tokens overlap
    | .ok sents => sentLoop tokLen max_tokens overlap sents [] 0 0

/-! ## Derived observations and concrete sample data -/

/-- Folding step extracting the status of the last database write. -/
def statusStep (acc : Option Status) (e : Event) : Option Status :=
  match e with
  | .dbWrite s _ _ _ => some s
  | _ => acc

/-- The status of the last database write of a trace, if any. -/
def lastStatusWrite (evs : List Event) : Option Status :=
  evs.foldl statusStep none

/-- A concrete testimony row used to instantiate theorems with
hypotheses. -/
def sampleTestimony : Testimony :=
  { id := 1
    church_id := "Lausanne"
    audio_hash := "abc123"
    storage_url := "gs://bucket/testimony_audio/a.mp3"
    transcript_status := .pending
    transcript := none
    summary := none
    summary_prompt_id := none
    tags := []
    recorded_at := "2025-01-01"
    audio_duration_ms := 1000
    user_file_name := "a.mp3" }

/-- A client whose chat-completion call raises. -/
def sampleClientErr : OpenAIClient :=
  { transcribe := fun _ => .ok "x"
    chat := fun _ => .error "boom"
    embed := fun _ => .ok [] }

/-- A client whose transcription call always raises a timeout. -/
def timeoutClient : OpenAIClient :=
  { transcribe := fun _ => .err "Request timeout"
    chat := fun _ => .ok ""
    embed := fun _ => .ok [] }

/-- A worker environment around `timeoutClient`. -/
def timeoutEnv : WorkerEnv :=
  { client := some timeoutClient, promptResult := .ok 1 }

/-- A client whose transcription call succeeds with whitespace-only
text. -/
def emptyResultClient : OpenAIClient :=
  { transcribe := fun _ => .ok "  "
    chat := fun _ => .ok "S"
    embed := fun _ => .ok [1] }

/-- A worker environment around `emptyResultClient`. -/
def emptyResultEnv : WorkerEnv :=
  { client := some emptyResultClient, promptResult := .ok 1 }

/-- An upload request whose audio decodes to hash `h` (for the
duplicate-guard theorems). -/
def sampleRequest : CreateRequest :=
  { fileSize := 1000
    fileName := "a.mp3"
    church_id := some "Lausanne"
    tags := none
    recorded_at := none
    decoded := some { length_ms := 60000, prefix30s_md5 := "h" }
    parseISO := fun _ => none
    today := "2025-01-01" }

/-- An upload request whose audio cannot be decoded. -/
def undecodableRequest : CreateRequest :=
  { fileSize := 1000
    fileName := "b.mp3"
    church_id := some "Lausanne"
    tags := none
    recorded_at := none
    decoded := none
    parseISO := fun _ => none
    today := "2025-01-01" }

/-- A store holding, for hash `h` and church `Lausanne`, first a
still-pending row and then a completed one. -/
def storePendingThenCompleted : TestimonyStore :=
  { rows :=
      [{ sampleTestimony with id := 1, audio_hash := "h", transcript_status := .pending },
       { sampleTestimony with
          id := 2
          audio_hash := "h"
          transcript_status := .completed
          transcript := some "texto"
          summary := some "resumen" }]
    nextId := 3 }

/-- A completed row for hash `h` and church `Lausanne`. -/
def completedRow1 : Testimony :=
  { sampleTestimony with
    id := 1
    audio_hash := "h"
    transcript_status := .completed
    transcript := some "texto"
    summary := some "resumen" }

/-- A store whose only row for hash `h` and church `Lausanne` is
completed. -/
def storeCompletedOnly : TestimonyStore :=
  { rows := [completedRow1], nextId := 2 }

/-- The empty prompt store with serial ids starting at 1. -/
def emptyPromptStore : PromptStore :=
  { rows := [], nextId := 1 }

/-! ## Helper lemmas -/

/-- Applying the same update dictionary twice equals applying it
once. -/
theorem update_testimony_idem (t : Testimony) (f : UpdateFields) :
    update_testimony (update_testimony t f) f = update_testimony t f := by
  obtain ⟨s, tr, su, pid⟩ := f
  cases s <;> cases tr <;> cases su <;> cases pid <;> rfl

/-- `find?` over an append whose left part has no match. -/
theorem find?_append_of_none {α : Type} (p : α → Bool) (l1 l2 : List α)
    (h : l1.find? p = none) : (l1 ++ l2).find? p = l2.find? p := by
  simp [List.find?_append, h]

/-! ## C10: frame effect of update_db_status -/

/-- C10: `update_db_status` writes only `transcript_status` plus the
truthy ones among transcript, summary and a non-`None` prompt id; a
call with absent or empty transcript and summary leaves the stored
transcript and summary (and every other column) unchanged, and
repeating the same write is idempotent. -/
theorem update_db_status_frame (t : Testimony) (st : Status)
    (tr su : Option String) (pid : Option Nat) :
    (pyTruthyStr tr = false → (update_db_status t st tr su pid).transcript = t.transcript) ∧
    (pyTruthyStr su = false → (update_db_status t st tr su pid).summary = t.summary) ∧
    (update_db_status t st tr su pid).transcript_status = st ∧
    (update_db_status t st tr su pid).id = t.id ∧
    (update_db_status t st tr su pid).church_id = t.church_id ∧
    (update_db_status t st tr su pid).audio_hash = t.audio_hash ∧
    (update_db_status t st tr su pid).storage_url = t.storage_url ∧
    (update_db_status t st tr su pid).tags = t.tags ∧
    (update_db_status t st tr su pid).recorded_at = t.recorded_at ∧
    (pid = none → (update_db_status t st tr su pid).summary_prompt_id = t.summary_prompt_id) ∧
    (∀ (tr2 su2 : Option String) (pid2 : Option Nat),
      update_db_status (update_db_status t st tr2 su2 pid2) st tr2 su2 pid2 =
        update_db_status t st tr2 su2 pid2) := by
  refine ⟨?_, ?_, rfl, rfl, rfl, rfl, rfl, rfl, rfl, ?_, ?_⟩
  · intro htr
    simp [update_db_status, update_db_status_data, update_testimony, htr]
  · intro hsu
    simp [update_db_status, update_db_status_data, update_testimony, hsu]
  · intro hpid
    simp [update_db_status, update_db_status_data, update_testimony, hpid]
  · intro tr2 su2 pid2
    exact update_testimony_idem t (update_db_status_data st tr2 su2 pid2)

/-- Closed instance of `update_db_status_frame` at a concrete row and
a `failed` write. -/
theorem update_db_status_frame_witness :
    pyTruthyStr (none : Option String) = false ∧
    pyTruthyStr (some "") = false ∧
    (update_db_status sampleTestimony .failed none (some "") none).transcript =
      sampleTestimony.transcript ∧
    (update_db_status sampleTestimony .failed none (some "") none).summary =
      sampleTestimony.summary ∧
    ((none : Option Nat) = none →
      (update_db_status sampleTestimony .failed none (some "") none).summary_prompt_id =
        sampleTestimony.summary_prompt_id) :=
  ⟨rfl, rfl,
    (update_db_status_frame sampleTestimony .failed none (some "") none).1 rfl,
    (update_db_status_frame sampleTestimony .failed none (some "") none).2.1 rfl,
    (update_db_status_frame sampleTestimony .failed none (some "") none).2.2.2.2.2.2.2.2.2.1⟩

/-! ## C8: generate_summary degrades to the empty string -/

/-- C8: `generate_summary` yields the empty string on an empty
transcript and on an uninitialized client, and converts every
exception of the external call into the empty string; being a total
function into `String`, it never propagates an error to its caller. -/
theorem generate_summary_never_raises :
    (∀ client, generate_summary client "" = "") ∧
    (∀ transcript, generate_summary none transcript = "") ∧
    (∀ (c : OpenAIClient) (transcript msg : String),
      c.chat transcript = .error msg → generate_summary (some c) transcript = "") := by
  refine ⟨fun client => ?_, fun transcript => rfl, fun c transcript msg h => ?_⟩
  · cases client <;> rfl
  · unfold generate_summary
    cases hb : transcript == "" <;> simp [hb, h]

/-- Closed instance of `generate_summary_never_raises` at a client
whose chat call raises. -/
theorem generate_summary_never_raises_witness :
    sampleClientErr.chat "hola" = .error "boom" ∧
    generate_summary (some sampleClientErr) "hola" = "" :=
  ⟨rfl, generate_summary_never_raises.2.2 sampleClientErr "hola" "boom" rfl⟩

/-! ## C9: empty transcription result -/

/-- C9: when the transcription call of the first attempt succeeds
with text that strips to empty, the run writes `processing` and then
`completed_empty` and nothing else: in particular no summary
generation and no embedding is attempted. -/
theorem empty_transcription_marks_completed_empty (env : WorkerEnv) (c : OpenAIClient)
    (raw : String) (hc : env.client = some c) (h0 : c.transcribe 0 = .ok raw)
    (he : pyStrip raw = "") :
    transcribe_testimony_run env =
      [Event.dbWrite .processing none none none,
       Event.dbWrite .completedEmpty none none none] ∧
    Event.summaryCall ∉ transcribe_testimony_run env ∧
    (∀ v, Event.embedUpsert v ∉ transcribe_testimony_run env) := by
  have htr : (if raw == "" then "" else pyStrip raw) = "" := by
    cases hraw : raw == "" <;> simp [he]
  have hrun : transcribe_testimony_run env =
      [Event.dbWrite .processing none none none,
       Event.dbWrite .completedEmpty none none none] := by
    unfold transcribe_testimony_run
    rw [hc]
    show runAttempts env c (maxRetries + 1) 0 = _
    rw [show maxRetries + 1 = Nat.succ maxRetries from rfl]
    unfold runAttempts
    rw [h0]
    simp [completionEvents, htr]
    exact fun _ => he
  refine ⟨hrun, ?_, fun v => ?_⟩ <;> simp [hrun]

/-- Closed instance of `empty_transcription_marks_completed_empty` at
a client returning whitespace-only text. -/
theorem empty_transcription_marks_completed_empty_witness :
    emptyResultEnv.client = some emptyResultClient ∧
    emptyResultClient.transcribe 0 = .ok "  " ∧
    pyStrip "  " = "" ∧
    transcribe_testimony_run emptyResultEnv =
      [Event.dbWrite .processing none none none,
       Event.dbWrite .completedEmpty none none none] :=
  ⟨rfl, rfl, by decide,
    (empty_transcription_marks_completed_empty emptyResultEnv emptyResultClient "  "
      rfl rfl (by decide)).1⟩

/-! ## C2: retry policy and terminal status writes -/

/-- The completion branch always ends in a terminal database write. -/
theorem completionEvents_terminal (env : WorkerEnv) (raw : String) (init : Option Status) :
    ∃ s, s.isTerminal = true ∧ (completionEvents env raw).foldl statusStep init = some s := by
  unfold completionEvents
  generalize (if raw == "" then "" else pyStrip raw) = transcript
  by_cases h : transcript = ""
  · refine ⟨.completedEmpty, rfl, ?_⟩
    simp [h, statusStep]
  · refine ⟨.completed, rfl, ?_⟩
    simp [h, statusStep, List.foldl_append]

/-- Every attempt loop started with enough fuel ends in a terminal
database write, whatever the oracle outcomes. -/
theorem runAttempts_terminal (env : WorkerEnv) (c : OpenAIClient) :
    ∀ (f r : Nat), maxRetries ≤ f + r → ∀ init : Option Status,
      ∃ s, s.isTerminal = true ∧ (runAttempts env c (f + 1) r).foldl statusStep init = some s := by
  intro f
  induction f with
  | zero =>
      intro r hr init
      simp only [runAttempts]
      cases h : c.transcribe r with
      | ok raw =>
          simp only [List.foldl_cons]
          exact completionEvents_terminal env raw _
      | err msg =>
          have hnlt : ¬ r < maxRetries := by omega
          cases ht : isTransientError msg <;>
            · refine ⟨.failed, rfl, ?_⟩
              simp [ht, hnlt, statusStep]
  | succ f ih =>
      intro r hr init
      simp only [runAttempts]
      cases h : c.transcribe r with
      | ok raw =>
          simp only [List.foldl_cons]
          exact completionEvents_terminal env raw _
      | err msg =>
          cases ht : isTransientError msg with
          | true =>
              by_cases hlt : r < maxRetries
              · simp only [ht, hlt, if_true, List.foldl_cons]
                exact ih (r + 1) (by omega) _
              · refine ⟨.failed, rfl, ?_⟩
                simp [ht, hlt, statusStep]
          | false =>
              refine ⟨.failed, rfl, ?_⟩
              simp [ht, statusStep]

/-- C2: every run of the transcription task ends with a terminal
status write; a run whose attempts all raise transient errors (rate
limit or timeout by message) retries exactly three times with
countdowns of 60 seconds times the attempt number and then writes
`failed`; a first attempt raising a non-transient error writes
`failed` immediately with no retry. -/
theorem transcription_retry_policy (env : WorkerEnv) :
    (∃ s, s.isTerminal = true ∧ lastStatusWrite (transcribe_testimony_run env) = some s) ∧
    (∀ c : OpenAIClient, env.client = some c →
      (∀ r, r ≤ maxRetries → ∃ msg, c.transcribe r = .err msg ∧ isTransientError msg = true) →
      transcribe_testimony_run env =
        [Event.dbWrite .processing none none none, Event.retryScheduled 60,
         Event.dbWrite .processing none none none, Event.retryScheduled 120,
         Event.dbWrite .processing none none none, Event.retryScheduled 180,
         Event.dbWrite .processing none none none,
         Event.dbWrite .failed none none none]) ∧
    (∀ (c : OpenAIClient) (msg : String), env.client = some c →
      c.transcribe 0 = .err msg → isTransientError msg = false →
      transcribe_testimony_run env =
        [Event.dbWrite .processing none none none,
         Event.dbWrite .failed none none none]) := by
  refine ⟨?_, ?_, ?_⟩
  · unfold transcribe_testimony_run
    cases hcl : env.client with
    | none => exact ⟨.failed, rfl, rfl⟩
    | some c => exact runAttempts_terminal env c maxRetries 0 (by omega) none
  · intro c hc htr
    obtain ⟨m0, e0, t0⟩ := htr 0 (by decide)
    obtain ⟨m1, e1, t1⟩ := htr 1 (by decide)
    obtain ⟨m2, e2, t2⟩ := htr 2 (by decide)
    obtain ⟨m3, e3, t3⟩ := htr 3 (by decide)
    unfold transcribe_testimony_run
    rw [hc]
    simp [runAttempts, maxRetries, e0, t0, e1, t1, e2, t2, e3, t3]
  · intro c msg hc h0 ht
    unfold transcribe_testimony_run
    rw [hc]
    simp [runAttempts, h0, ht]

/-- Closed instance of `transcription_retry_policy` at a client whose
transcription call always raises a timeout. -/
theorem transcription_retry_policy_witness :
    timeoutEnv.client = some timeoutClient ∧
    (∀ r, r ≤ maxRetries →
      ∃ msg, timeoutClient.transcribe r = .err msg ∧ isTransientError msg = true) ∧
    transcribe_testimony_run timeoutEnv =
      [Event.dbWrite .processing none none none, Event.retryScheduled 60,
       Event.dbWrite .processing none none none, Event.retryScheduled 120,
       Event.dbWrite .processing none none none, Event.retryScheduled 180,
       Event.dbWrite .processing none none none,
       Event.dbWrite .failed none none none] := by
  have hall : ∀ r, r ≤ maxRetries →
      ∃ msg, timeoutClient.transcribe r = .err msg ∧ isTransientError msg = true :=
    fun r _ => ⟨"Request timeout", rfl, by decide⟩
  exact ⟨rfl, hall, (transcription_retry_policy timeoutEnv).2.1 timeoutClient rfl hall⟩

/-! ## C3: no transcript or summary before completed -/

/-- Unfolding lemma for `traceStates` on the empty trace. -/
theorem traceStates_nil (t0 : Testimony) : traceStates t0 [] = [t0] := rfl

/-- Unfolding lemma for `traceStates` on a cons. -/
theorem traceStates_cons (t0 : Testimony) (e : Event) (evs : List Event) :
    traceStates t0 (e :: evs) = t0 :: traceStates (applyEvent t0 e) evs := rfl

/-- A status write carrying no transcript and no summary preserves
absent transcript and summary. -/
theorem update_db_status_none_fields (t : Testimony) (st : Status)
    (h1 : t.transcript = none) (h2 : t.summary = none) :
    (update_db_status t st none none none).transcript = none ∧
    (update_db_status t st none none none).summary = none :=
  ⟨h1, h2⟩

/-- The row states along the completion branch keep transcript and
summary absent except in the final `completed` state. -/
theorem completionEvents_states (env : WorkerEnv) (raw : String) (t1 : Testimony)
    (h1 : t1.transcript = none) (h2 : t1.summary = none) :
    ∀ t ∈ traceStates t1 (completionEvents env raw),
      t.transcript_status ≠ .completed → t.transcript = none ∧ t.summary = none := by
  unfold completionEvents
  generalize (if raw == "" then "" else pyStrip raw) = transcript
  by_cases h : transcript = ""
  · intro t ht hs
    rw [if_pos (by simp [h])] at ht
    rw [traceStates_cons, traceStates_nil] at ht
    simp at ht
    rcases ht with rfl | rfl
    · exact ⟨h1, h2⟩
    · exact ⟨h1, h2⟩
  · intro t ht hs
    rw [if_neg (by simp [h])] at ht
    replace ht : t ∈ traceStates t1
        (Event.summaryCall ::
          ((if generate_summary env.client transcript == "" then []
            else
              if generate_embedding_from_summary_text env.client
                  (generate_summary env.client transcript) == [] then []
              else
                [Event.embedUpsert
                  (generate_embedding_from_summary_text env.client
                    (generate_summary env.client transcript))]) ++
            [Event.dbWrite .completed (some transcript)
              (some (generate_summary env.client transcript))
              (match env.promptResult with | Except.ok i => some i | Except.error _ => none)])) := ht
    rw [traceStates_cons] at ht
    simp only [List.mem_cons] at ht
    rcases ht with rfl | ht
    · exact ⟨h1, h2⟩
    · have hemb :
          ∀ evs : List Event, (∀ e ∈ evs, applyEvent t1 e = t1) →
            t ∈ traceStates t1 (evs ++
              [Event.dbWrite .completed (some transcript)
                (some (generate_summary env.client transcript))
                (match env.promptResult with | Except.ok i => some i | Except.error _ => none)]) →
            t.transcript_status ≠ .completed → t.transcript = none ∧ t.summary = none := by
        intro evs
        induction evs with
        | nil =>
            intro _ hmem hne
            rw [List.nil_append, traceStates_cons, traceStates_nil] at hmem
            simp at hmem
            rcases hmem with rfl | rfl
            · exact ⟨h1, h2⟩
            · exact absurd rfl hne
        | cons e rest ih =>
            intro hid hmem hne
            rw [List.cons_append, traceStates_cons, hid e (by simp)] at hmem
            simp only [List.mem_cons] at hmem
            rcases hmem with rfl | hmem
            · exact ⟨h1, h2⟩
            · exact ih (fun e2 he2 => hid e2 (by simp [he2])) hmem hne
      have happ : applyEvent t1 Event.summaryCall = t1 := rfl
      rw [happ] at ht
      refine hemb _ ?_ ht hs
      intro e he
      by_cases hv : generate_summary env.client transcript = ""
      · simp [hv] at he
      · rw [if_neg (by simp [hv])] at he
        by_cases hvec :
            generate_embedding_from_summary_text env.client
              (generate_summary env.client transcript) = []
        · simp [hvec] at he
        · rw [if_neg (by simp [hvec])] at he
          simp at he
          subst he
          rfl

/-- The row states along the attempt loop keep transcript and summary
absent except in a `completed` state, whatever the oracle outcomes. -/
theorem runAttempts_states (env : WorkerEnv) (c : OpenAIClient) :
    ∀ (f r : Nat) (t1 : Testimony), t1.transcript = none → t1.summary = none →
      ∀ t ∈ traceStates t1 (runAttempts env c f r),
        t.transcript_status ≠ .completed → t.transcript = none ∧ t.summary = none := by
  intro f
  induction f with
  | zero =>
      intro r t1 h1 h2 t ht hs
      simp only [runAttempts, traceStates_nil, List.mem_singleton] at ht
      subst ht
      exact ⟨h1, h2⟩
  | succ f ih =>
      intro r t1 h1 h2 t ht hs
      simp only [runAttempts] at ht
      rw [traceStates_cons] at ht
      simp only [List.mem_cons] at ht
      rcases ht with rfl | ht
      · exact ⟨h1, h2⟩
      · have h1p : (applyEvent t1 (Event.dbWrite .processing none none none)).transcript = none := h1
        have h2p : (applyEvent t1 (Event.dbWrite .processing none none none)).summary = none := h2
        cases h : c.transcribe r with
        | ok raw =>
            rw [h] at ht
            exact completionEvents_states env raw _ h1p h2p t ht hs
        | err msg =>
            simp only [h] at ht
            cases htr : isTransientError msg with
            | true =>
                rw [htr] at ht
                by_cases hlt : r < maxRetries
                · rw [if_pos rfl, if_pos hlt, traceStates_cons] at ht
                  simp only [List.mem_cons] at ht
                  rcases ht with rfl | ht
                  · exact ⟨h1, h2⟩
                  · exact ih (r + 1) _ h1p h2p t ht hs
                · rw [if_pos rfl, if_neg hlt, traceStates_cons, traceStates_nil] at ht
                  simp at ht
                  rcases ht with rfl | rfl
                  · exact ⟨h1, h2⟩
                  · exact ⟨h1, h2⟩
            | false =>
                rw [htr] at ht
                rw [if_neg (by simp), traceStates_cons, traceStates_nil] at ht
                simp at ht
                rcases ht with rfl | rfl
                · exact ⟨h1, h2⟩
                · exact ⟨h1, h2⟩

/-- C3: starting from the pending row the gateway inserts, every
store state produced by the worker run keeps transcript and summary
absent while the status is not `completed`. -/
theorem pipeline_no_content_before_completed (env : WorkerEnv) (req : CreateRequest)
    (store : TestimonyStore) (church_id storage_url : String) (duration_ms : Nat)
    (audio_hash : String) :
    ∀ t ∈ traceStates (newTestimonyData req store church_id storage_url duration_ms audio_hash)
        (transcribe_testimony_run env),
      t.transcript_status ≠ .completed → t.transcript = none ∧ t.summary = none := by
  intro t ht hs
  unfold transcribe_testimony_run at ht
  cases hcl : env.client with
  | none =>
      rw [hcl, traceStates_cons, traceStates_nil] at ht
      simp at ht
      rcases ht with rfl | rfl
      · exact ⟨rfl, rfl⟩
      · exact ⟨rfl, rfl⟩
  | some c =>
      rw [hcl] at ht
      exact runAttempts_states env c (maxRetries + 1) 0 _ rfl rfl t ht hs

/-- Closed instance of `pipeline_no_content_before_completed` at the
freshly inserted pending row of a concrete upload and the
always-timeout worker. -/
theorem pipeline_no_content_before_completed_witness :
    newTestimonyData sampleRequest storeCompletedOnly "Lausanne" "gs://x" 5 "h" ∈
      traceStates (newTestimonyData sampleRequest storeCompletedOnly "Lausanne" "gs://x" 5 "h")
        (transcribe_testimony_run timeoutEnv) ∧
    (newTestimonyData sampleRequest storeCompletedOnly "Lausanne" "gs://x" 5 "h").transcript_status ≠
      .completed ∧
    ((newTestimonyData sampleRequest storeCompletedOnly "Lausanne" "gs://x" 5 "h").transcript = none ∧
      (newTestimonyData sampleRequest storeCompletedOnly "Lausanne" "gs://x" 5 "h").summary = none) :=
  ⟨by decide, by decide,
    pipeline_no_content_before_completed timeoutEnv sampleRequest storeCompletedOnly
      "Lausanne" "gs://x" 5 "h"
      (newTestimonyData sampleRequest storeCompletedOnly "Lausanne" "gs://x" 5 "h")
      (by decide) (by decide)⟩

/-! ## C5 and C6: prompt registry -/

/-- A second registry call whose hashed content
`template|model|version` equals the first call's returns the same id
and leaves the store of the first call unchanged; the first call adds
at most one row. -/
theorem get_or_create_hash_hit (sb : PromptStore)
    (n1 v1 t1 m1 : String) (temp1 : Rat) (mt1 : Nat)
    (n2 v2 t2 m2 : String) (temp2 : Rat) (mt2 : Nat)
    (hh : t1 ++ "|" ++ m1 ++ "|" ++ v1 = t2 ++ "|" ++ m2 ++ "|" ++ v2) :
    (get_or_create_summary_prompt (get_or_create_summary_prompt sb n1 v1 t1 m1 temp1 mt1).2
        n2 v2 t2 m2 temp2 mt2).1 =
      (get_or_create_summary_prompt sb n1 v1 t1 m1 temp1 mt1).1 ∧
    (get_or_create_summary_prompt (get_or_create_summary_prompt sb n1 v1 t1 m1 temp1 mt1).2
        n2 v2 t2 m2 temp2 mt2).2 =
      (get_or_create_summary_prompt sb n1 v1 t1 m1 temp1 mt1).2 ∧
    (get_or_create_summary_prompt sb n1 v1 t1 m1 temp1 mt1).2.rows.length ≤ sb.rows.length + 1 := by
  simp only [get_or_create_summary_prompt, sha256_hex, ← hh]
  cases hf : sb.rows.find?
      (fun r => r.template_hash == t1 ++ "|" ++ m1 ++ "|" ++ v1) with
  | some r =>
      simp [hf]
  | none =>
      have hrow : (fun r : SummaryPrompt => r.template_hash == t1 ++ "|" ++ m1 ++ "|" ++ v1)
          { id := sb.nextId, name := n1, version := v1, prompt_template := t1, model_name := m1,
            temperature := temp1, max_tokens := mt1,
            template_hash := t1 ++ "|" ++ m1 ++ "|" ++ v1, is_active := true } = true := by
        simp
      simp [hf, find?_append_of_none _ _ _ hf, List.find?, hrow]

/-- C5: `get_or_create_summary_prompt` is idempotent by content:
called twice with identical arguments it returns the same id both
times, the second call does not change the store, and at most one row
is created. -/
theorem get_or_create_summary_prompt_idempotent (sb : PromptStore)
    (name version prompt_template model_name : String) (temperature : Rat) (max_tokens : Nat) :
    (get_or_create_summary_prompt
        (get_or_create_summary_prompt sb name version prompt_template model_name
          temperature max_tokens).2
        name version prompt_template model_name temperature max_tokens).1 =
      (get_or_create_summary_prompt sb name version prompt_template model_name
        temperature max_tokens).1 ∧
    (get_or_create_summary_prompt
        (get_or_create_summary_prompt sb name version prompt_template model_name
          temperature max_tokens).2
        name version prompt_template model_name temperature max_tokens).2 =
      (get_or_create_summary_prompt sb name version prompt_template model_name
        temperature max_tokens).2 ∧
    (get_or_create_summary_prompt sb name version prompt_template model_name
      temperature max_tokens).2.rows.length ≤ sb.rows.length + 1 :=
  get_or_create_hash_hit sb name version prompt_template model_name temperature max_tokens
    name version prompt_template model_name temperature max_tokens rfl

/-- C6 counterexample: two calls that differ in the `name` argument
(and in `temperature` and `max_tokens`) but share the hashed content
return the same id, refuting that any differing argument yields a
different id. -/
theorem get_or_create_summary_prompt_name_blind :
    ("summary" : String) ≠ "other" ∧ (0 : Rat) ≠ 1 ∧ (250 : Nat) ≠ 100 ∧
    (get_or_create_summary_prompt
        (get_or_create_summary_prompt emptyPromptStore "summary" "v2" "T" "M" 0 250).2
        "other" "v2" "T" "M" 1 100).1 =
      (get_or_create_summary_prompt emptyPromptStore "summary" "v2" "T" "M" 0 250).1 := by
  refine ⟨by decide, by decide, by decide, by decide⟩

/-- C6 amended: the registry id separates exactly the hashed content:
on a well-formed store, two successive calls whose concatenated
`template|model|version` strings differ return different ids, while
calls differing only in name, temperature or max tokens return the
same id. -/
theorem get_or_create_summary_prompt_content_keyed (sb : PromptStore) (hwf : sb.WF)
    (n1 v1 t1 m1 : String) (temp1 : Rat) (mt1 : Nat)
    (n2 v2 t2 m2 : String) (temp2 : Rat) (mt2 : Nat) :
    (t1 ++ "|" ++ m1 ++ "|" ++ v1 ≠ t2 ++ "|" ++ m2 ++ "|" ++ v2 →
      (get_or_create_summary_prompt (get_or_create_summary_prompt sb n1 v1 t1 m1 temp1 mt1).2
          n2 v2 t2 m2 temp2 mt2).1 ≠
        (get_or_create_summary_prompt sb n1 v1 t1 m1 temp1 mt1).1) ∧
    (t1 = t2 → m1 = m2 → v1 = v2 →
      (get_or_create_summary_prompt (get_or_create_summary_prompt sb n1 v1 t1 m1 temp1 mt1).2
          n2 v2 t2 m2 temp2 mt2).1 =
        (get_or_create_summary_prompt sb n1 v1 t1 m1 temp1 mt1).1) := by
  constructor
  · intro hh
    have hsymm : Symmetric (fun a b : SummaryPrompt => a.id ≠ b.id) := by
      intro a b hab
      exact fun e => hab e.symm
    simp only [get_or_create_summary_prompt, sha256_hex]
    cases hf1 : sb.rows.find? (fun r => r.template_hash == t1 ++ "|" ++ m1 ++ "|" ++ v1) with
    | some r1 =>
        have hr1m : r1 ∈ sb.rows := List.mem_of_find?_eq_some hf1
        have hr1h : r1.template_hash = t1 ++ "|" ++ m1 ++ "|" ++ v1 := by
          have := List.find?_some hf1
          simpa using this
        simp only [hf1]
        cases hf2 : sb.rows.find? (fun r => r.template_hash == t2 ++ "|" ++ m2 ++ "|" ++ v2) with
        | some r2 =>
            have hr2m : r2 ∈ sb.rows := List.mem_of_find?_eq_some hf2
            have hr2h : r2.template_hash = t2 ++ "|" ++ m2 ++ "|" ++ v2 := by
              have := List.find?_some hf2
              simpa using this
            have hne : r2 ≠ r1 := by
              intro e
              exact hh (by rw [← hr1h, ← e, hr2h])
            simpa using hwf.1.forall hsymm hr2m hr1m hne
        | none =>
            have : r1.id < sb.nextId := hwf.2 r1 hr1m
            simp only [hf2]
            omega
    | none =>
        have hbeq : ((t1 ++ "|" ++ m1 ++ "|" ++ v1) == (t2 ++ "|" ++ m2 ++ "|" ++ v2)) = false :=
          beq_eq_false_iff_ne.mpr hh
        simp only [hf1]
        cases hf2 : sb.rows.find? (fun r => r.template_hash == t2 ++ "|" ++ m2 ++ "|" ++ v2) with
        | some r2 =>
            have hr2m : r2 ∈ sb.rows := List.mem_of_find?_eq_some hf2
            have hlt : r2.id < sb.nextId := hwf.2 r2 hr2m
            simp [List.find?_append, hf2]
            omega
        | none =>
            rw [find?_append_of_none _ _ _ hf2]
            simp [List.find?, hbeq]
  · intro ht hm hv
    exact (get_or_create_hash_hit sb n1 v1 t1 m1 temp1 mt1 n2 v2 t2 m2 temp2 mt2
      (by rw [ht, hm, hv])).1

/-- Closed instance of `get_or_create_summary_prompt_content_keyed`
on the empty store with two different templates. -/
theorem get_or_create_summary_prompt_content_keyed_witness :
    emptyPromptStore.WF ∧
    ("T" ++ "|" ++ "M" ++ "|" ++ "v2" : String) ≠ "T2" ++ "|" ++ "M" ++ "|" ++ "v2" ∧
    (get_or_create_summary_prompt
        (get_or_create_summary_prompt emptyPromptStore "summary" "v2" "T" "M" 0 250).2
        "summary" "v2" "T2" "M" 0 250).1 ≠
      (get_or_create_summary_prompt emptyPromptStore "summary" "v2" "T" "M" 0 250).1 := by
  have hwf : emptyPromptStore.WF := by
    constructor
    · simp [emptyPromptStore]
    · intro r hr
      simp [emptyPromptStore] at hr
  have hne : ("T" ++ "|" ++ "M" ++ "|" ++ "v2" : String) ≠ "T2" ++ "|" ++ "M" ++ "|" ++ "v2" := by
    decide
  exact ⟨hwf, hne,
    (get_or_create_summary_prompt_content_keyed emptyPromptStore hwf
      "summary" "v2" "T" "M" 0 250 "summary" "v2" "T2" "M" 0 250).1 hne⟩

/-! ## C1: duplicate guard at the ingestion gateway -/

/-- C1 counterexample: a store can hold a completed testimony
matching the upload fingerprint and origin while the first
fingerprint match is still pending; `create_testimony` then uploads,
inserts and enqueues instead of returning the completed record. -/
theorem duplicate_completed_not_short_circuited :
    (storePendingThenCompleted.rows.any fun t =>
        t.audio_hash == "h" && t.church_id == "Lausanne" &&
          decide (t.transcript_status = .completed)) = true ∧
    (create_testimony storePendingThenCompleted sampleRequest).2.2 = CreateEffects.full ∧
    (create_testimony storePendingThenCompleted sampleRequest).2.1 ≠ storePendingThenCompleted := by
  refine ⟨by decide, by decide, by decide⟩

/-- C1 amended: when the first record matching the upload fingerprint
and origin (as found by `check_duplicate_testimony`) is completed,
`create_testimony` returns that record marked as a duplicate, leaves
the store unchanged and performs no upload, no insert and no
enqueue. -/
theorem duplicate_completed_short_circuit (store : TestimonyStore) (req : CreateRequest)
    (c : String) (audio : DecodedAudio) (d : Nat) (e : Testimony)
    (hsize : req.fileSize ≤ MAX_FILE_SIZE)
    (hcin : req.church_id = some c)
    (hcv : churchLocations.contains c = true)
    (hcne : c ≠ "")
    (hdec : req.decoded = some audio)
    (hdup : check_duplicate_testimony store audio.prefix30s_md5 (some c) = some d)
    (hd0 : d ≠ 0)
    (hget : get_testimony_by_id store d = some e)
    (hcomp : e.transcript_status = .completed) :
    create_testimony store req = (.duplicateOf e, store, CreateEffects.none) := by
  have hmem : c ∈ churchLocations := by simpa using hcv
  simp [create_testimony, Nat.not_lt.mpr hsize, hcin, hmem, hcne, hdec, get_audio_metadata,
    hdup, hd0, hget, hcomp]

/-- Closed instance of `duplicate_completed_short_circuit` at a store
whose only matching row is completed. -/
theorem duplicate_completed_short_circuit_witness :
    sampleRequest.fileSize ≤ MAX_FILE_SIZE ∧
    sampleRequest.church_id = some "Lausanne" ∧
    churchLocations.contains "Lausanne" = true ∧
    ("Lausanne" : String) ≠ "" ∧
    sampleRequest.decoded = some { length_ms := 60000, prefix30s_md5 := "h" } ∧
    check_duplicate_testimony storeCompletedOnly "h" (some "Lausanne") = some 1 ∧
    (1 : Nat) ≠ 0 ∧
    get_testimony_by_id storeCompletedOnly 1 = some completedRow1 ∧
    completedRow1.transcript_status = .completed ∧
    create_testimony storeCompletedOnly sampleRequest =
      (.duplicateOf completedRow1, storeCompletedOnly, CreateEffects.none) :=
  ⟨by decide, rfl, by decide, by decide, rfl, by decide, by decide, by decide, by decide,
    duplicate_completed_short_circuit storeCompletedOnly sampleRequest "Lausanne"
      { length_ms := 60000, prefix30s_md5 := "h" } 1 completedRow1
      (by decide) rfl (by decide) (by decide) rfl (by decide) (by decide) (by decide) (by decide)⟩

/-! ## C7: fingerprint failure handling -/

/-- C7 counterexample: on an undecodable input (for example the empty
byte string, whose whole-file MD5 would be
`d41d8cd98f00b204e9800998ecf8427e`), `get_audio_metadata` returns a
null hash instead of falling back to hashing the whole file bytes. -/
theorem fingerprint_no_whole_file_fallback :
    (get_audio_metadata none).2 = none ∧
    (get_audio_metadata none).2 ≠ some "d41d8cd98f00b204e9800998ecf8427e" :=
  ⟨rfl, by decide⟩

/-- C7 amended: `get_audio_metadata` returns a null hash exactly when
decoding fails (there is no whole-file fallback), and the gateway
then rejects the upload with a 400 client error without uploading,
inserting or enqueueing. -/
theorem undecodable_audio_rejected (decoded : Option DecodedAudio) (store : TestimonyStore)
    (req : CreateRequest) (c : String)
    (hdec : req.decoded = none) (hsize : req.fileSize ≤ MAX_FILE_SIZE)
    (hcin : req.church_id = some c) (hcv : churchLocations.contains c = true) :
    ((get_audio_metadata decoded).2 = none ↔ decoded = none) ∧
    create_testimony store req =
      (.httpError 400 "Could not process audio file", store, CreateEffects.none) := by
  constructor
  · cases decoded <;> simp [get_audio_metadata]
  · have hmem : c ∈ churchLocations := by simpa using hcv
    simp [create_testimony, Nat.not_lt.mpr hsize, hcin, hmem, hdec, get_audio_metadata]

/-- Closed instance of `undecodable_audio_rejected` at an upload
whose audio cannot be decoded. -/
theorem undecodable_audio_rejected_witness :
    undecodableRequest.decoded = none ∧
    undecodableRequest.fileSize ≤ MAX_FILE_SIZE ∧
    undecodableRequest.church_id = some "Lausanne" ∧
    churchLocations.contains "Lausanne" = true ∧
    create_testimony storeCompletedOnly undecodableRequest =
      (.httpError 400 "Could not process audio file", storeCompletedOnly, CreateEffects.none) :=
  ⟨rfl, by decide, rfl, by decide,
    (undecodable_audio_rejected none storeCompletedOnly undecodableRequest "Lausanne"
      rfl (by decide) rfl (by decide)).2⟩

/-! ## C4: chunk token bound -/

/-- C4 (evaluation at the failing input): with the shipped fallback
whitespace tokenizer and a single-sentence segmentation (what nltk
produces for unpunctuated text such as the repository test input
`"palabra " * 2500`), a 5-token text with `max_tokens = 2` and
`overlap = 1` yields a 0-token chunk followed by a 5-token chunk:
the emitted token counts exceed `max_tokens`, contradicting the
repository test asserting every chunk stays within the budget. -/
theorem make_chunks_exceeds_budget :
    make_chunks wordCount (fun t => .ok [t]) "a a a a a" 2 1 =
      [{ idx := 0, text := "", tokens := 0 },
       { idx := 1, text := "a a a a a", tokens := 5 }] ∧
    wordCount "a a a a a" > 2 ∧
    ((make_chunks wordCount (fun t => .ok [t]) "a a a a a" 2 1).any
        fun ch => decide (ch.tokens > 2)) = true :=
  ⟨by decide, by decide, by decide⟩

end TestimonyVault
